import Mathlib

/-!
Verification of the spaniel connection driver and stream multiplexer
(src/connection.rs and src/stream.rs) against its specification.

The two source files are translated into a shallow embedding below. Collaborators that
are not part of the sources (the flow_control module with Credits and the FC constants,
the protocol::frames vocabulary, the futures mpsc channels and the frame codec) are
modelled from the specification; each such definition says so in its doc comment.
Machine integers are modelled as Nat, with an explicit reduction modulo 2 ^ 32 at the
single place the source casts a length to u32.
-/

namespace Spaniel

/-- Task handles of the futures runtime, modelled as opaque identifiers. -/
abbrev Task := Nat

/-- Stream identifier; the source wraps a u32 in a newtype. -/
abbrev StreamId := Nat

/-- Connection-level error kinds, from ConnectionError in connection.rs. -/
inductive ConnectionError where
  | invalidStreamId
  | unknownFrame
  | general
  | insufficientCredit
deriving DecidableEq, Repr

/-- Modelled from the spec: StreamRequest frame of the protocol::frames module, which is
not under src. Opens a new stream with an initial receive window. -/
structure StreamRequest where
  stream_id : StreamId
  credit_capacity : Nat
deriving DecidableEq, Repr

/-- Modelled from the spec: CreditUpdate frame of the protocol::frames module, granting
additional sending credit. -/
structure CreditUpdate where
  stream_id : StreamId
  credit : Nat
deriving DecidableEq, Repr

/-- Modelled from the spec: Data frame of the protocol::frames module, carrying
application bytes. -/
structure Data where
  stream_id : StreamId
  payload : List Nat
deriving DecidableEq, Repr

/-- Modelled from the spec: the frame vocabulary handled by the core. -/
inductive Frame where
  | streamRequest (f : StreamRequest)
  | creditUpdate (f : CreditUpdate)
  | data (f : Data)
  | ping (a b : Nat)
  | pong (a b : Nat)
  | unknown
deriving DecidableEq, Repr

/-- Modelled from the spec: the Credits counter of the flow_control module, which is not
under src. Holds capacity (immutable high-water mark) and available (current grant). -/
structure Credits where
  capacity : Nat
  available : Nat
deriving DecidableEq, Repr

/-- Modelled from the spec: Credits.new(capacity) starts with available = capacity. -/
def Credits.new (capacity : Nat) : Credits := ⟨capacity, capacity⟩

/-- Modelled from the spec: has_capacity(n) holds when available is at least n. -/
def Credits.has_capacity (cr : Credits) (n : Nat) : Bool := decide (n ≤ cr.available)

/-- Modelled from the spec: reserve decrements available by n; callers guard with
has_capacity first. The source calls this use_credit. -/
def Credits.use_credit (cr : Credits) (n : Nat) : Credits :=
  { cr with available := cr.available - n }

/-- Modelled from the spec: grant sets available to min(capacity, available + n),
saturating at capacity. The source calls this add_credit and, following its use in
StreamRef.return_credit, the new available value is returned alongside. -/
def Credits.add_credit (cr : Credits) (n : Nat) : Credits × Nat :=
  let a := min cr.capacity (cr.available + n)
  ({ cr with available := a }, a)

/-- Modelled from the spec: flow-control numerator constant, with 0 < NUM < DEN; the
spec gives 1/2 as the example ratio. -/
def FC_NUMERATOR : Nat := 1

/-- Modelled from the spec: flow-control denominator constant. -/
def FC_DENOMINATOR : Nat := 2

/-- Modelled from the spec: the pluggable flow-control strategy is either Disabled or
Enabled; only disabled-or-not is observed by the core. -/
inductive FlowControlStrategy where
  | disabled
  | enabled
deriving DecidableEq, Repr

/-- Connection configuration from connection.rs. -/
structure ConnectionConfig where
  flow_control_strategy : FlowControlStrategy
deriving DecidableEq, Repr

/-- Default configuration: flow control disabled. -/
def ConnectionConfig.default : ConnectionConfig := ⟨.disabled⟩

/-- Per-stream state from stream.rs. The data field holds the buffered contents of the
stream's single-slot inbound mpsc channel (the receiver end lives here; the matching
sender end is registered in the connection's stream_senders map). -/
structure StreamState where
  credits : Credits
  data_buffer : List Data
  data : List Frame
  send_task : Option Task
  recv_task : Option Task
deriving DecidableEq, Repr

/-- The shared connection hub from connection.rs. The buffers of the futures mpsc
channels are stored here: outbound is the contents of the 1024-slot outbound channel,
outboundClosed models its receiver end having been dropped, and each stream's
single-slot inbound buffer lives inside its StreamState. The notified field is
instrumentation recording every task handle that has been woken, in order. -/
structure ConnectionContext where
  cfg : ConnectionConfig
  id : Nat
  err : Option ConnectionError
  stream_states : StreamId → Option StreamState
  stream_senders : StreamId → Bool
  outbound : List Frame
  outboundClosed : Bool
  new_streams : List StreamRequest
  conn_task : Option Task
  new_stream_task : Option Task
  notified : List Task

/-- ConnectionContext.new from connection.rs: a fresh context with no streams, an empty
outbound queue and no latched error. -/
def ConnectionContext.new (id : Nat) : ConnectionContext where
  cfg := ConnectionConfig.default
  id := id
  err := none
  stream_states := fun _ => none
  stream_senders := fun _ => false
  outbound := []
  outboundClosed := false
  new_streams := []
  conn_task := none
  new_stream_task := none
  notified := []

/-- Poll results of futures 0.1: Ready with a value, or NotReady. -/
inductive Async (α : Type) where
  | ready (a : α)
  | notReady
deriving DecidableEq, Repr

/-- Frame-handling helper from connection.rs. -/
inductive AsyncHandle (α : Type) where
  | ready
  | notReady (t : α)
deriving DecidableEq, Repr

/-- has_err from connection.rs. -/
def ConnectionContext.has_err (c : ConnectionContext) : Bool := c.err.isSome

/-- set_err from connection.rs: latches an error. -/
def ConnectionContext.set_err (c : ConnectionContext) (e : ConnectionError) :
    ConnectionContext :=
  { c with err := some e }

/-- notify_conn_task from connection.rs: takes the stored driver task, if any, and wakes
it (recorded in the notified instrumentation list). -/
def ConnectionContext.notify_conn_task (c : ConnectionContext) : ConnectionContext :=
  match c.conn_task with
  | none => c
  | some t => { c with conn_task := none, notified := c.notified ++ [t] }

/-- notify_new_stream_task from connection.rs. -/
def ConnectionContext.notify_new_stream_task (c : ConnectionContext) : ConnectionContext :=
  match c.new_stream_task with
  | none => c
  | some t => { c with new_stream_task := none, notified := c.notified ++ [t] }

/-- next_stream from connection.rs: pops the oldest pending inbound stream request. -/
def ConnectionContext.next_stream (c : ConnectionContext) :
    ConnectionContext × Option StreamRequest :=
  match c.new_streams with
  | [] => (c, none)
  | r :: rest => ({ c with new_streams := rest }, some r)

/-- Modelled from the spec: try_send on the outbound bounded FIFO of capacity 1024.
It fails (returning false) when the buffer is full or the receiver end is gone; the
frame is dropped in that case because every caller in the source ignores the result. -/
def ConnectionContext.outbound_try_send (c : ConnectionContext) (f : Frame) :
    ConnectionContext × Bool :=
  if c.outboundClosed then (c, false)
  else if c.outbound.length < 1024 then ({ c with outbound := c.outbound ++ [f] }, true)
  else (c, false)

/-- poll_conn_capacity from connection.rs: poll_ready on the outbound sender. Modelled
from the spec channel contract: an error when the receiver end is gone, NotReady while
the bounded buffer is full. -/
def ConnectionContext.poll_conn_capacity (c : ConnectionContext) :
    Except Unit (Async Unit) :=
  if c.outboundClosed then .error ()
  else if c.outbound.length < 1024 then .ok (.ready ())
  else .ok .notReady

/-- on_stream_request from connection.rs: reject a colliding stream id, otherwise create
the stream state with Credits.new, register the inbound sender, append the raw request
to new_streams and wake the acceptor task. -/
def ConnectionContext.on_stream_request (c : ConnectionContext) (request : StreamRequest) :
    ConnectionContext × Except ConnectionError (AsyncHandle Frame) :=
  let stream_id := request.stream_id
  match c.stream_states stream_id with
  | some _ => (c, .error .invalidStreamId)
  | none =>
    let state : StreamState :=
      { credits := Credits.new request.credit_capacity
        data_buffer := []
        data := []
        send_task := none
        recv_task := none }
    let c1 : ConnectionContext :=
      { c with
        stream_states := fun s => if s = stream_id then some state else c.stream_states s
        stream_senders := fun s => if s = stream_id then true else c.stream_senders s
        new_streams := c.new_streams ++ [request] }
    (c1.notify_new_stream_task, .ok .ready)

/-- on_credit_update from connection.rs. The source body is a stub marked TODO: it
ignores the frame entirely and returns Ready without touching any state. -/
def ConnectionContext.on_credit_update (c : ConnectionContext) (_request : CreditUpdate) :
    ConnectionContext × Except ConnectionError (AsyncHandle Frame) :=
  (c, .ok .ready)

/-- Tail of on_data from connection.rs: try_send of the data frame into the stream's
single-slot inbound channel, returning the frame inside NotReady when rejected. The
stream state handed in (with any credit already consumed) is written back through the
map in either case, matching the in-place mutation of the source. -/
def ConnectionContext.on_data_send (c : ConnectionContext) (stream_id : StreamId)
    (stream_state : StreamState) (data : Data) :
    Option (ConnectionContext × Except ConnectionError (AsyncHandle Frame)) :=
  if stream_state.data.length < 1 then
    let stream_state := { stream_state with data := stream_state.data ++ [Frame.data data] }
    some ({ c with stream_states := fun s =>
        if s = stream_id then some stream_state else c.stream_states s },
      .ok .ready)
  else
    some ({ c with stream_states := fun s =>
        if s = stream_id then some stream_state else c.stream_states s },
      .ok (.notReady (Frame.data data)))

/-- on_data from connection.rs. The unwrap of the stream sender is modelled by returning
none (a panic) when the sender is missing, which cannot happen in reachable states. The
single-slot inbound channel reports ready exactly when its buffer is empty, and the
readiness check comes before any flow-control accounting. -/
def ConnectionContext.on_data (c : ConnectionContext) (data : Data) :
    Option (ConnectionContext × Except ConnectionError (AsyncHandle Frame)) :=
  let stream_id := data.stream_id
  match c.stream_states stream_id with
  | none => some (c, .error .invalidStreamId)
  | some stream_state =>
    if c.stream_senders stream_id = false then none
    else if 1 ≤ stream_state.data.length then
      some (c, .ok (.notReady (Frame.data data)))
    else
      let frame_size := data.payload.length % 2 ^ 32
      if c.cfg.flow_control_strategy ≠ FlowControlStrategy.disabled then
        if stream_state.credits.has_capacity frame_size = false then
          some (c, .error .insufficientCredit)
        else
          c.on_data_send stream_id
            { stream_state with credits := stream_state.credits.use_credit frame_size } data
      else
        c.on_data_send stream_id stream_state data

/-- handle_frame from connection.rs: dispatch by frame variant. -/
def ConnectionContext.handle_frame (c : ConnectionContext) (f : Frame) :
    Option (ConnectionContext × Except ConnectionError (AsyncHandle Frame)) :=
  match f with
  | .streamRequest frame => some (c.on_stream_request frame)
  | .creditUpdate frame => some (c.on_credit_update frame)
  | .data frame => c.on_data frame
  | .ping _ _ => some (c, .ok .ready)
  | .pong _ _ => some (c, .ok .ready)
  | .unknown => some (c, .error .unknownFrame)

/-- poll_stream_capacity from connection.rs. The calling task is passed explicitly in
place of the implicit task::current() of the source. -/
def ConnectionContext.poll_stream_capacity (c : ConnectionContext) (stream_id : StreamId)
    (current : Task) : ConnectionContext × Except ConnectionError (Async Nat) :=
  if c.has_err then (c, .error .general)
  else
    match c.poll_conn_capacity with
    | .error _ => (c, .error .insufficientCredit)
    | .ok .notReady => (c, .ok .notReady)
    | .ok (.ready _) =>
      match c.stream_states stream_id with
      | none => (c, .error .invalidStreamId)
      | some stream_state =>
        let remaining := stream_state.credits.available
        if remaining = 0 then
          ({ c with stream_states := fun s =>
              if s = stream_id then some { stream_state with send_task := some current }
              else c.stream_states s },
            .ok .notReady)
        else (c, .ok (.ready remaining))

/-- Shared tail of send_frame from connection.rs: try_send onto the outbound queue with
the result ignored (marked TODO in the source), then notify_conn_task, then Ok. -/
def ConnectionContext.send_frame_finish (c : ConnectionContext) (frame : Frame) :
    ConnectionContext × Except ConnectionError Unit :=
  let cres := c.outbound_try_send frame
  (cres.1.notify_conn_task, .ok ())

/-- send_frame from connection.rs: flow-control validation for Data frames, then the
shared enqueue-and-notify tail. -/
def ConnectionContext.send_frame (c : ConnectionContext) (frame : Frame) :
    ConnectionContext × Except ConnectionError Unit :=
  match frame with
  | .data d =>
    match c.stream_states d.stream_id with
    | none => (c, .error .invalidStreamId)
    | some stream_state =>
      if c.cfg.flow_control_strategy ≠ FlowControlStrategy.disabled then
        let size := d.payload.length % 2 ^ 32
        if stream_state.credits.has_capacity size = false then
          (c, .error .insufficientCredit)
        else
          let c1 : ConnectionContext :=
            { c with stream_states := fun s =>
                if s = d.stream_id then
                  some { stream_state with credits := stream_state.credits.use_credit size }
                else c.stream_states s }
          c1.send_frame_finish (Frame.data d)
      else c.send_frame_finish (Frame.data d)
  | _ => c.send_frame_finish frame

/-- StreamRef.return_credit from stream.rs, acting on the shared context of the given
stream. Credits are granted in place, the threshold is capacity * FC_NUMERATOR /
FC_DENOMINATOR, and a CreditUpdate carrying the delta of this call is handed to
send_frame whenever the new available is at least the threshold (the send result is
only logged). -/
def ConnectionContext.return_credit (c : ConnectionContext) (stream_id : StreamId)
    (credit : Nat) : ConnectionContext × Except Unit Unit :=
  match c.stream_states stream_id with
  | none => (c, .error ())
  | some stream =>
    let initial := stream.credits.available
    let ca := stream.credits.add_credit credit
    let available := ca.2
    let capacity := ca.1.capacity
    let thr := capacity * FC_NUMERATOR / FC_DENOMINATOR
    let unannounced_credits := available - initial
    let past_threshold := decide (thr ≤ available)
    let c1 : ConnectionContext :=
      { c with stream_states := fun s =>
          if s = stream_id then some { stream with credits := ca.1 } else c.stream_states s }
    if past_threshold then
      let frame := Frame.creditUpdate { stream_id := stream_id, credit := unannounced_credits }
      ((c1.send_frame frame).1, .ok ())
    else (c1, .ok ())

/-- StreamRequester.poll from stream.rs, acting on the shared context; the resolved
StreamRef is represented by its stream id. A colliding id fails; otherwise the stream
state and sender are inserted, a StreamRequest frame is submitted through send_frame,
and the future resolves. -/
def ConnectionContext.streamRequester_poll (c : ConnectionContext) (stream_id : StreamId)
    (credit : Nat) : ConnectionContext × Except Unit (Async StreamId) :=
  match c.stream_states stream_id with
  | some _ => (c, .error ())
  | none =>
    let state : StreamState :=
      { data_buffer := []
        credits := Credits.new credit
        send_task := none
        recv_task := none
        data := [] }
    let c1 : ConnectionContext :=
      { c with
        stream_senders := fun s => if s = stream_id then true else c.stream_senders s
        stream_states := fun s => if s = stream_id then some state else c.stream_states s }
    let sr : StreamRequest := { stream_id := stream_id, credit_capacity := credit }
    let cres := c1.send_frame (Frame.streamRequest sr)
    match cres.2 with
    | .error _ => (cres.1, .error ())
    | .ok _ => (cres.1, .ok (.ready stream_id))

/-- IncomingStreams.poll from stream.rs: end of sequence once an error is latched,
otherwise yield the oldest pending stream request (as the id of the fresh StreamRef) or
park the calling task in new_stream_task. -/
def ConnectionContext.incomingStreams_poll (c : ConnectionContext) (current : Task) :
    ConnectionContext × Except Unit (Async (Option StreamId)) :=
  if c.has_err then (c, .ok (.ready none))
  else
    match c.next_stream with
    | (c1, some ev) => (c1, .ok (.ready (some ev.stream_id)))
    | (c1, none) => ({ c1 with new_stream_task := some current }, .ok .notReady)

/-- Modelled from the spec: the FrameWriter collaborator of the codec. The written list
collects flushed frames and ready models poll_buffer_ready; flushing keeps the writer
ready. -/
structure FrameWriter where
  written : List Frame
  ready : Bool
deriving DecidableEq, Repr

/-- Drains a list of frames popped from the outbound listener into the writer; Ready
only when the channel is closed and drained, NotReady when it is empty but open. -/
def drainOutbound : List Frame → Bool → FrameWriter → FrameWriter × Async Unit
  | [], closed, w => (w, if closed then .ready () else .notReady)
  | f :: rest, closed, w => drainOutbound rest closed { w with written := w.written ++ [f] }

/-- poll_complete from connection.rs: wait for the writer buffer, then pop frames off
the outbound listener and flush each. -/
def ConnectionContext.poll_complete (c : ConnectionContext) (w : FrameWriter) :
    ConnectionContext × FrameWriter × Async Unit :=
  if w.ready = false then (c, w, .notReady)
  else
    let res := drainOutbound c.outbound c.outboundClosed w
    ({ c with outbound := [] }, res.1, res.2)

/-- Result of one call to poll_read_progress. -/
inductive ReadResult where
  | ready
  | notReady
  | ioError (e : ConnectionError)
deriving DecidableEq, Repr

/-- The read loop of ConnectionDriver.poll_read_progress once head_of_line is clear. The
reader is modelled as the list of frames it will decode, followed by either a clean EOF
or a hard I/O error. A per-frame dispatch error is only logged and the loop continues; a
NotReady from handle_frame stops the loop and returns the carried frame for parking. -/
def runRead : List Frame → Bool → ConnectionContext →
    Option (ReadResult × Option Frame × List Frame × ConnectionContext)
  | [], ioErr, c => some (if ioErr then .ioError .general else .ready, none, [], c)
  | f :: rest, ioErr, c =>
    match c.handle_frame f with
    | none => none
    | some (c1, .ok .ready) => runRead rest ioErr c1
    | some (c1, .error _) => runRead rest ioErr c1
    | some (c1, .ok (.notReady g)) => some (.notReady, some g, rest, c1)

/-- ConnectionDriver.poll_read_progress: the parked head_of_line frame, if any, is
dispatched before anything is pulled from the reader; a frame refused with NotReady is
returned for parking together with the untouched remainder of the reader. -/
def poll_read_progress (hol : Option Frame) (frames : List Frame) (ioErr : Bool)
    (c : ConnectionContext) :
    Option (ReadResult × Option Frame × List Frame × ConnectionContext) :=
  match hol with
  | none => runRead frames ioErr c
  | some f =>
    match c.handle_frame f with
    | none => none
    | some (c1, .ok .ready) => runRead frames ioErr c1
    | some (c1, .error _) => runRead frames ioErr c1
    | some (c1, .ok (.notReady g)) => some (.notReady, some g, frames, c1)

/-- Future.poll of ConnectionDriver: read progress, then write progress. A hard read
error is latched into the context with set_err and the driver terminates with an error;
a clean EOF terminates it successfully. The driver task is stored only when write
progress reported Ready, mirroring the try_ready shortcut of the source. -/
def driver_poll (t : Task) (hol : Option Frame) (frames : List Frame) (ioErr : Bool)
    (c : ConnectionContext) (w : FrameWriter) :
    Option (Except Unit (Async Unit) × Option Frame × List Frame × ConnectionContext × FrameWriter) :=
  match poll_read_progress hol frames ioErr c with
  | none => none
  | some (.ready, hol1, rest, c1) => some (.ok (.ready ()), hol1, rest, c1, w)
  | some (.ioError e, hol1, rest, c1) => some (.error (), hol1, rest, c1.set_err e, w)
  | some (.notReady, hol1, rest, c1) =>
    match c1.poll_complete w with
    | (c2, w2, .notReady) => some (.ok .notReady, hol1, rest, c2, w2)
    | (c2, w2, .ready _) =>
      some (.ok .notReady, hol1, rest, { c2 with conn_task := some t }, w2)

/-- Externally invokable operations that mutate the shared connection context. -/
inductive Op where
  | handle (f : Frame)
  | send (f : Frame)
  | pollCap (stream_id : StreamId) (t : Task)
  | retCredit (stream_id : StreamId) (n : Nat)
  | requester (stream_id : StreamId) (credit : Nat)
  | next
  | incoming (t : Task)
  | complete (w : FrameWriter)
  | driver (t : Task) (hol : Option Frame) (frames : List Frame) (ioErr : Bool) (w : FrameWriter)

/-- Effect of one operation on the shared context (a panic leaves no post-state to
observe, so the prior state is kept). -/
def applyOp (op : Op) (c : ConnectionContext) : ConnectionContext :=
  match op with
  | .handle f => (match c.handle_frame f with | none => c | some r => r.1)
  | .send f => (c.send_frame f).1
  | .pollCap sid t => (c.poll_stream_capacity sid t).1
  | .retCredit sid n => (c.return_credit sid n).1
  | .requester sid cr => (c.streamRequester_poll sid cr).1
  | .next => c.next_stream.1
  | .incoming t => (c.incomingStreams_poll t).1
  | .complete w => (c.poll_complete w).1
  | .driver t hol frames ioErr w =>
    (match driver_poll t hol frames ioErr c w with
     | none => c
     | some r => r.2.2.2.1)

/-- Connection context states reachable from a fresh context through the public
operations. -/
inductive Reachable : ConnectionContext → Prop where
  | base (id : Nat) : Reachable (ConnectionContext.new id)
  | step (op : Op) {c : ConnectionContext} : Reachable c → Reachable (applyOp op c)

/-- Invariant: stream_states and stream_senders have the same key set. -/
def KeysEq (c : ConnectionContext) : Prop :=
  ∀ s : StreamId, (c.stream_states s).isSome ↔ c.stream_senders s = true

/-! Concrete contexts used to instantiate the theorems below. -/

/-- Stream state with the given credit numbers and inbound buffer, no parked tasks. -/
def mkStream (capacity available : Nat) (q : List Frame) : StreamState :=
  { credits := { capacity := capacity, available := available }
    data_buffer := []
    data := q
    send_task := none
    recv_task := none }

/-- Fresh context holding exactly one stream (state plus inbound sender) and the given
outbound queue contents. -/
def singleStreamCtx (sid : StreamId) (st : StreamState) (ob : List Frame) :
    ConnectionContext :=
  { ConnectionContext.new 0 with
    stream_states := fun s => if s = sid then some st else none
    stream_senders := fun s => decide (s = sid)
    outbound := ob }

/-- Fresh context whose outbound queue already holds its full 1024-frame capacity. -/
def fullOutboundCtx : ConnectionContext :=
  { ConnectionContext.new 0 with outbound := List.replicate 1024 (Frame.ping 0 0) }

/-- Post-state of a successful send_frame: the call returns Ok, the frame is appended to
the outbound queue exactly when the queue is open and below its 1024-frame capacity
(and silently dropped otherwise), the driver task slot is emptied and its previous
occupant woken, the stream map equals the given one, and everything else is unchanged. -/
def sendOkPost (c : ConnectionContext) (f : Frame)
    (states : StreamId → Option StreamState) : Prop :=
  (c.send_frame f).2 = .ok ()
  ∧ (c.send_frame f).1.stream_states = states
  ∧ (c.send_frame f).1.outbound =
      (if c.outboundClosed = false ∧ c.outbound.length < 1024 then c.outbound ++ [f]
       else c.outbound)
  ∧ (c.send_frame f).1.conn_task = none
  ∧ (c.send_frame f).1.notified = c.notified ++ c.conn_task.toList
  ∧ (c.send_frame f).1.stream_senders = c.stream_senders
  ∧ (c.send_frame f).1.new_streams = c.new_streams
  ∧ (c.send_frame f).1.err = c.err

/-- Behaviour of the shared enqueue-and-notify tail of send_frame: it always succeeds,
appends the frame exactly when the outbound queue is open and below capacity, clears and
wakes the driver task, and leaves everything else untouched. -/
lemma send_frame_finish_spec (c : ConnectionContext) (f : Frame) :
    (c.send_frame_finish f).2 = .ok ()
    ∧ (c.send_frame_finish f).1.stream_states = c.stream_states
    ∧ (c.send_frame_finish f).1.stream_senders = c.stream_senders
    ∧ (c.send_frame_finish f).1.outbound =
        (if c.outboundClosed = false ∧ c.outbound.length < 1024 then c.outbound ++ [f]
         else c.outbound)
    ∧ (c.send_frame_finish f).1.conn_task = none
    ∧ (c.send_frame_finish f).1.notified = c.notified ++ c.conn_task.toList
    ∧ (c.send_frame_finish f).1.new_streams = c.new_streams
    ∧ (c.send_frame_finish f).1.err = c.err
    ∧ (c.send_frame_finish f).1.outboundClosed = c.outboundClosed
    ∧ (c.send_frame_finish f).1.cfg = c.cfg
    ∧ (c.send_frame_finish f).1.new_stream_task = c.new_stream_task := by
  unfold ConnectionContext.send_frame_finish ConnectionContext.outbound_try_send
    ConnectionContext.notify_conn_task
  cases hct : c.conn_task <;> cases hcl : c.outboundClosed <;>
    by_cases hlen : c.outbound.length < 1024 <;>
      simp [hct, hcl, hlen]

/-- Claim C1: an inbound Data frame for a known stream whose single-slot inbound queue
is not ready is handed back inside NotReady unchanged, with no credit consumed and
nothing enqueued; the driver parks exactly that frame in head_of_line without touching
the rest of the reader; the next read cycle dispatches the parked frame before pulling
anything from the reader, either parking it again while the queue stays full or, once
the queue has drained, delivering that same frame into the stream before the reader is
read any further. -/
theorem c1_data_backpressure (c : ConnectionContext) (d : Data) (st : StreamState)
    (rest : List Frame) (b : Bool)
    (hs : c.stream_states d.stream_id = some st)
    (hsend : c.stream_senders d.stream_id = true)
    (hfull : 1 ≤ st.data.length) :
    c.handle_frame (Frame.data d) = some (c, .ok (.notReady (Frame.data d)))
    ∧ poll_read_progress none (Frame.data d :: rest) b c =
        some (.notReady, some (Frame.data d), rest, c)
    ∧ poll_read_progress (some (Frame.data d)) rest b c =
        some (.notReady, some (Frame.data d), rest, c)
    ∧ (∀ c2 st2, c2.stream_states d.stream_id = some st2 →
        c2.stream_senders d.stream_id = true → st2.data = [] →
        (c2.cfg.flow_control_strategy = FlowControlStrategy.disabled ∨
          st2.credits.has_capacity (d.payload.length % 2 ^ 32) = true) →
        ∃ c3, c2.handle_frame (Frame.data d) = some (c3, .ok .ready)
          ∧ (∃ st3, c3.stream_states d.stream_id = some st3 ∧ st3.data = [Frame.data d])
          ∧ poll_read_progress (some (Frame.data d)) rest b c2 = runRead rest b c3) := by
  have h1 : c.handle_frame (Frame.data d) = some (c, .ok (.notReady (Frame.data d))) := by
    simp [ConnectionContext.handle_frame, ConnectionContext.on_data, hs, hsend, hfull]
  refine ⟨h1, ?_, ?_, ?_⟩
  · simp [poll_read_progress, runRead, h1]
  · simp [poll_read_progress, h1]
  · intro c2 st2 hs2 hsend2 hempty hcap
    by_cases hfc : c2.cfg.flow_control_strategy = FlowControlStrategy.disabled
    · have h2 : c2.handle_frame (Frame.data d) =
          some ({ c2 with stream_states := fun s =>
              if s = d.stream_id then some { st2 with data := [Frame.data d] }
              else c2.stream_states s }, .ok .ready) := by
        simp [ConnectionContext.handle_frame, ConnectionContext.on_data,
          ConnectionContext.on_data_send, hs2, hsend2, hempty, hfc]
      refine ⟨_, h2, ⟨{ st2 with data := [Frame.data d] }, ?_, rfl⟩, ?_⟩
      · simp
      · simp [poll_read_progress, h2]
    · rcases hcap with hcap | hcap
      · exact absurd hcap hfc
      · have h2 : c2.handle_frame (Frame.data d) = some ({ c2 with stream_states := fun s => if s = d.stream_id then some ({ st2 with credits := st2.credits.use_credit (d.payload.length % 2 ^ 32), data := [Frame.data d] }) else c2.stream_states s }, .ok .ready) := by
          simp [ConnectionContext.handle_frame, ConnectionContext.on_data,
            ConnectionContext.on_data_send, hs2, hsend2, hempty, hfc]
          simpa using hcap
        refine ⟨_, h2,
          ⟨{ st2 with credits := st2.credits.use_credit (d.payload.length % 2 ^ 32), data := [Frame.data d] }, ?_, rfl⟩, ?_⟩
        · simp
        · simp [poll_read_progress, h2]

/-- Witness for C1 at a concrete blocked stream. -/
theorem c1_data_backpressure_witness :
    (singleStreamCtx 7 (mkStream 100 100 [Frame.ping 0 0]) []).handle_frame
        (Frame.data { stream_id := 7, payload := [0, 1] }) =
      some (singleStreamCtx 7 (mkStream 100 100 [Frame.ping 0 0]) [],
        .ok (.notReady (Frame.data { stream_id := 7, payload := [0, 1] }))) :=
  (c1_data_backpressure (singleStreamCtx 7 (mkStream 100 100 [Frame.ping 0 0]) [])
    { stream_id := 7, payload := [0, 1] } (mkStream 100 100 [Frame.ping 0 0]) [] false
    rfl rfl (by decide)).1

/-- Claim C2 (code bug): on_credit_update is an unimplemented stub, so a CreditUpdate
frame for the known stream 7 leaves the whole context unchanged (credits stay at 10,
nothing is woken) and a CreditUpdate for the unknown stream 9 returns Ready instead of
InvalidStreamId. -/
theorem c2_credit_update_stub :
    (singleStreamCtx 7
        { credits := { capacity := 100, available := 10 }
          data_buffer := []
          data := []
          send_task := some 5
          recv_task := none } []).handle_frame
        (Frame.creditUpdate { stream_id := 7, credit := 5 }) =
      some (singleStreamCtx 7
        { credits := { capacity := 100, available := 10 }
          data_buffer := []
          data := []
          send_task := some 5
          recv_task := none } [], .ok .ready)
    ∧ (ConnectionContext.new 0).handle_frame
        (Frame.creditUpdate { stream_id := 9, credit := 5 }) =
      some (ConnectionContext.new 0, .ok .ready) :=
  ⟨rfl, rfl⟩

set_option maxRecDepth 100000 in
/-- Claim C3 counterexample: with the outbound queue already at its 1024-frame
capacity, return_credit 20 on a stream of capacity 100 and available 40 raises
available to 60, which is at least the threshold 50, yet no CreditUpdate frame reaches
the outbound queue: try_send fails and the frame is dropped. -/
theorem c3_threshold_counterexample :
    ((singleStreamCtx 7 (mkStream 100 40 []) (List.replicate 1024 (Frame.ping 0 0))).return_credit 7 20).2 = .ok ()
    ∧ (((singleStreamCtx 7 (mkStream 100 40 []) (List.replicate 1024 (Frame.ping 0 0))).return_credit 7 20).1.stream_states 7).map (fun st => st.credits.available) = some 60
    ∧ ((singleStreamCtx 7 (mkStream 100 40 []) (List.replicate 1024 (Frame.ping 0 0))).return_credit 7 20).1.outbound.length = 1024 :=
  ⟨rfl, rfl, rfl⟩

/-- Claim C3 (amended): return_credit n on a known stream sets available to
min(capacity, available + n); a CreditUpdate carrying the delta of this very call
(available_after minus available_before) is handed to send_frame iff the new available
is at least the threshold, and it lands on the outbound queue exactly when the queue is
open and below its 1024-frame capacity, being silently dropped otherwise. -/
theorem c3_return_credit_amended (c : ConnectionContext) (sid : StreamId) (n : Nat)
    (st : StreamState) (hs : c.stream_states sid = some st) :
    (c.return_credit sid n).2 = .ok ()
    ∧ (c.return_credit sid n).1.stream_states sid =
        some { st with credits := { capacity := st.credits.capacity, available := min st.credits.capacity (st.credits.available + n) } }
    ∧ (c.return_credit sid n).1.outbound =
        (if st.credits.capacity * FC_NUMERATOR / FC_DENOMINATOR ≤ min st.credits.capacity (st.credits.available + n) then
          (if c.outboundClosed = false ∧ c.outbound.length < 1024 then
            c.outbound ++ [Frame.creditUpdate { stream_id := sid, credit := min st.credits.capacity (st.credits.available + n) - st.credits.available }]
          else c.outbound)
        else c.outbound) := by
  cases hct : c.conn_task <;> cases hcl : c.outboundClosed <;>
    by_cases hlen : c.outbound.length < 1024 <;>
      by_cases hthr : st.credits.capacity * FC_NUMERATOR / FC_DENOMINATOR ≤ min st.credits.capacity (st.credits.available + n) <;>
        refine ⟨?_, ?_, ?_⟩ <;>
          simp [ConnectionContext.return_credit, hs, Credits.add_credit,
            ConnectionContext.send_frame, ConnectionContext.send_frame_finish,
            ConnectionContext.outbound_try_send, ConnectionContext.notify_conn_task,
            hct, hcl, hlen, hthr]

/-- Witness for C3 at a concrete stream crossing the threshold. -/
theorem c3_return_credit_witness :
    ((singleStreamCtx 7 (mkStream 100 40 []) []).return_credit 7 20).2 = .ok () :=
  (c3_return_credit_amended (singleStreamCtx 7 (mkStream 100 40 []) []) 7 20
    (mkStream 100 40 []) rfl).1

/-- Claim C4 counterexample: after an Unknown frame the driver neither latches an error
nor stops; it keeps processing, creates stream 9 from the following StreamRequest, and
terminates cleanly at EOF with the error latch still empty. -/
theorem c4_unknown_counterexample :
    poll_read_progress none [Frame.unknown, Frame.streamRequest { stream_id := 9, credit_capacity := 10 }] false (ConnectionContext.new 0) =
      some (.ready, none, [], ((ConnectionContext.new 0).on_stream_request { stream_id := 9, credit_capacity := 10 }).1)
    ∧ ((ConnectionContext.new 0).on_stream_request { stream_id := 9, credit_capacity := 10 }).1.err = none
    ∧ (((ConnectionContext.new 0).on_stream_request { stream_id := 9, credit_capacity := 10 }).1.stream_states 9).isSome = true
    ∧ (driver_poll 0 none [Frame.unknown, Frame.streamRequest { stream_id := 9, credit_capacity := 10 }] false (ConnectionContext.new 0) { written := [], ready := true }).map (fun r => r.1) = some (.ok (.ready ())) :=
  ⟨rfl, rfl, rfl, rfl⟩

/-- Claim C4 (amended): an Unknown frame makes handle_frame fail with UnknownFrame and
leaves the context untouched, and the driver merely logs that error and continues with
the following frames; only a hard I/O error from the reader is latched into the context
through set_err and terminates the driver with an error. -/
theorem c4_error_latch_amended :
    (∀ c : ConnectionContext, c.handle_frame Frame.unknown = some (c, .error .unknownFrame))
    ∧ (∀ (c : ConnectionContext) (rest : List Frame) (b : Bool),
        runRead (Frame.unknown :: rest) b c = runRead rest b c)
    ∧ (∀ (t : Task) (hol : Option Frame) (frames : List Frame) (b : Bool)
        (c : ConnectionContext) (w : FrameWriter) (e : ConnectionError)
        (hol1 : Option Frame) (rest : List Frame) (c1 : ConnectionContext),
        poll_read_progress hol frames b c = some (.ioError e, hol1, rest, c1) →
        driver_poll t hol frames b c w = some (.error (), hol1, rest, c1.set_err e, w)
          ∧ (c1.set_err e).err = some e) := by
  refine ⟨fun c => rfl, fun c rest b => rfl, ?_⟩
  intro t hol frames b c w e hol1 rest c1 h
  exact ⟨by simp [driver_poll, h], rfl⟩

/-- Witness for C4 at a reader that fails immediately with an I/O error. -/
theorem c4_error_latch_witness :
    driver_poll 0 none [] true (ConnectionContext.new 0) { written := [], ready := true } =
      some (.error (), none, [], (ConnectionContext.new 0).set_err .general, { written := [], ready := true })
    ∧ ((ConnectionContext.new 0).set_err ConnectionError.general).err = some .general :=
  c4_error_latch_amended.2.2 0 none [] true (ConnectionContext.new 0)
    { written := [], ready := true } .general none [] (ConnectionContext.new 0) rfl

set_option maxRecDepth 100000 in
/-- Claim C5 counterexample: with the outbound queue at its 1024-frame capacity,
send_frame of a Ping still returns Ok but the frame never reaches the outbound queue;
it is silently dropped instead of enqueued. -/
theorem c5_full_queue_counterexample :
    (fullOutboundCtx.send_frame (Frame.ping 1 2)).2 = .ok ()
    ∧ (fullOutboundCtx.send_frame (Frame.ping 1 2)).1.outbound = fullOutboundCtx.outbound :=
  ⟨rfl, rfl⟩

/-- Claim C5 (amended): send_frame fails with InvalidStreamId for a Data frame on an
unknown stream and with InsufficientCredit for a Data frame lacking capacity under
enabled flow control, both without changing any state; otherwise it reserves the
payload's credit (for Data under enabled flow control), appends the frame to the
outbound queue when the queue is open and below its 1024-frame capacity (silently
dropping it otherwise), and notifies the driver task; non-Data frames bypass flow
control entirely. -/
theorem c5_send_frame_amended (c : ConnectionContext) :
    (∀ d : Data, c.stream_states d.stream_id = none →
        c.send_frame (Frame.data d) = (c, .error .invalidStreamId))
    ∧ (∀ (d : Data) (st : StreamState), c.stream_states d.stream_id = some st →
        c.cfg.flow_control_strategy ≠ FlowControlStrategy.disabled →
        st.credits.has_capacity (d.payload.length % 2 ^ 32) = false →
        c.send_frame (Frame.data d) = (c, .error .insufficientCredit))
    ∧ (∀ (d : Data) (st : StreamState), c.stream_states d.stream_id = some st →
        c.cfg.flow_control_strategy ≠ FlowControlStrategy.disabled →
        st.credits.has_capacity (d.payload.length % 2 ^ 32) = true →
        sendOkPost c (Frame.data d) (fun s => if s = d.stream_id then some ({ st with credits := st.credits.use_credit (d.payload.length % 2 ^ 32) }) else c.stream_states s))
    ∧ (∀ (d : Data) (st : StreamState), c.stream_states d.stream_id = some st →
        c.cfg.flow_control_strategy = FlowControlStrategy.disabled →
        sendOkPost c (Frame.data d) c.stream_states)
    ∧ (∀ f : Frame, (∀ d : Data, f ≠ Frame.data d) →
        sendOkPost c f c.stream_states) := by
  refine ⟨?_, ?_, ?_, ?_, ?_⟩
  · intro d hs
    simp [ConnectionContext.send_frame, hs]
  · intro d st hs hfc hcap
    have hcap2 : st.credits.has_capacity (d.payload.length % 4294967296) = false := by
      simpa using hcap
    simp [ConnectionContext.send_frame, hs, hfc, hcap2]
  · intro d st hs hfc hcap
    have hcap2 : st.credits.has_capacity (d.payload.length % 4294967296) = true := by
      simpa using hcap
    have he : c.send_frame (Frame.data d) = ({ c with stream_states := fun s => if s = d.stream_id then some ({ st with credits := st.credits.use_credit (d.payload.length % 2 ^ 32) }) else c.stream_states s } : ConnectionContext).send_frame_finish (Frame.data d) := by
      simp [ConnectionContext.send_frame, hs, hfc, hcap2]
    unfold sendOkPost
    rw [he]
    obtain ⟨h1, h2, h3, h4, h5, h6, h7, h8, _, _, _⟩ :=
      send_frame_finish_spec ({ c with stream_states := fun s => if s = d.stream_id then some ({ st with credits := st.credits.use_credit (d.payload.length % 2 ^ 32) }) else c.stream_states s } : ConnectionContext) (Frame.data d)
    exact ⟨h1, h2, h4, h5, h6, h3, h7, h8⟩
  · intro d st hs hfc
    have he : c.send_frame (Frame.data d) = c.send_frame_finish (Frame.data d) := by
      simp [ConnectionContext.send_frame, hs, hfc]
    unfold sendOkPost
    rw [he]
    obtain ⟨h1, h2, h3, h4, h5, h6, h7, h8, _, _, _⟩ := send_frame_finish_spec c (Frame.data d)
    exact ⟨h1, h2, h4, h5, h6, h3, h7, h8⟩
  · intro f hf
    have he : c.send_frame f = c.send_frame_finish f := by
      cases f with
      | streamRequest fr => rfl
      | creditUpdate fr => rfl
      | data d => exact absurd rfl (hf d)
      | ping a b => rfl
      | pong a b => rfl
      | unknown => rfl
    unfold sendOkPost
    rw [he]
    obtain ⟨h1, h2, h3, h4, h5, h6, h7, h8, _, _, _⟩ := send_frame_finish_spec c f
    exact ⟨h1, h2, h4, h5, h6, h3, h7, h8⟩

/-- Witness for C5 at a concrete non-Data frame on a fresh context. -/
theorem c5_send_frame_witness :
    sendOkPost (ConnectionContext.new 0) (Frame.ping 3 4)
      (ConnectionContext.new 0).stream_states :=
  (c5_send_frame_amended (ConnectionContext.new 0)).2.2.2.2 (Frame.ping 3 4)
    (fun _ h => nomatch h)

set_option maxRecDepth 100000 in
/-- Claim C6 counterexample: with the outbound queue full (a connection-level
unreadiness), poll_stream_capacity on the known stream 1 with available 5 returns
NotReady rather than failing with InsufficientCredit, and it does not store the calling
task in the stream's send_task slot. -/
theorem c6_not_ready_counterexample :
    ((singleStreamCtx 1 (mkStream 100 5 []) (List.replicate 1024 (Frame.ping 0 0))).poll_stream_capacity 1 42).2 = .ok .notReady
    ∧ (((singleStreamCtx 1 (mkStream 100 5 []) (List.replicate 1024 (Frame.ping 0 0))).poll_stream_capacity 1 42).1.stream_states 1).map (fun st => st.send_task) = some none :=
  ⟨rfl, rfl⟩

/-- Claim C6 (amended): poll_stream_capacity fails with General whenever the connection
has a latched error; with no latched error it fails with InsufficientCredit when the
outbound channel reports an error (receiver gone), returns NotReady without storing any
task when the outbound queue is merely full, fails with InvalidStreamId for an unknown
stream once the outbound side is ready, returns NotReady and stores the calling task in
send_task when the stream's available credit is zero, and otherwise returns Ready with
the available credit. -/
theorem c6_poll_stream_capacity_amended (c : ConnectionContext) (sid : StreamId) (t : Task) :
    (∀ e, c.err = some e → c.poll_stream_capacity sid t = (c, .error .general))
    ∧ (c.err = none → c.outboundClosed = true →
        c.poll_stream_capacity sid t = (c, .error .insufficientCredit))
    ∧ (c.err = none → c.outboundClosed = false → ¬ c.outbound.length < 1024 →
        c.poll_stream_capacity sid t = (c, .ok .notReady))
    ∧ (c.err = none → c.outboundClosed = false → c.outbound.length < 1024 →
        c.stream_states sid = none →
        c.poll_stream_capacity sid t = (c, .error .invalidStreamId))
    ∧ (∀ st, c.err = none → c.outboundClosed = false → c.outbound.length < 1024 →
        c.stream_states sid = some st → st.credits.available = 0 →
        c.poll_stream_capacity sid t =
          ({ c with stream_states := fun s => if s = sid then some ({ st with send_task := some t }) else c.stream_states s }, .ok .notReady))
    ∧ (∀ st, c.err = none → c.outboundClosed = false → c.outbound.length < 1024 →
        c.stream_states sid = some st → st.credits.available ≠ 0 →
        c.poll_stream_capacity sid t = (c, .ok (.ready st.credits.available))) := by
  refine ⟨?_, ?_, ?_, ?_, ?_, ?_⟩
  · intro e he
    simp [ConnectionContext.poll_stream_capacity, ConnectionContext.has_err, he]
  · intro he hcl
    simp [ConnectionContext.poll_stream_capacity, ConnectionContext.has_err,
      ConnectionContext.poll_conn_capacity, he, hcl]
  · intro he hcl hlen
    simp [ConnectionContext.poll_stream_capacity, ConnectionContext.has_err,
      ConnectionContext.poll_conn_capacity, he, hcl, hlen]
  · intro he hcl hlen hs
    simp [ConnectionContext.poll_stream_capacity, ConnectionContext.has_err,
      ConnectionContext.poll_conn_capacity, he, hcl, hlen, hs]
  · intro st he hcl hlen hs hz
    simp [ConnectionContext.poll_stream_capacity, ConnectionContext.has_err,
      ConnectionContext.poll_conn_capacity, he, hcl, hlen, hs, hz]
  · intro st he hcl hlen hs hz
    simp [ConnectionContext.poll_stream_capacity, ConnectionContext.has_err,
      ConnectionContext.poll_conn_capacity, he, hcl, hlen, hs, hz]

/-- Witness for C6 at a concrete stream with credit available. -/
theorem c6_poll_stream_capacity_witness :
    (singleStreamCtx 3 (mkStream 10 10 []) []).poll_stream_capacity 3 0 =
      (singleStreamCtx 3 (mkStream 10 10 []) [], .ok (.ready 10)) :=
  (c6_poll_stream_capacity_amended (singleStreamCtx 3 (mkStream 10 10 []) []) 3 0).2.2.2.2.2
    (mkStream 10 10 []) rfl rfl (by decide) rfl (by decide)

/-- Claim C7 counterexample: on a stream with capacity 100 and available 100 (at least
the threshold 50), return_credit 0 is not a no-op on the outbound queue: it enqueues a
CreditUpdate frame carrying credit 0. -/
theorem c7_return_zero_counterexample :
    ((singleStreamCtx 7 (mkStream 100 100 []) []).return_credit 7 0).1.outbound =
      [Frame.creditUpdate { stream_id := 7, credit := 0 }] :=
  rfl

/-- Claim C7 (amended): return_credit 0 on a known stream leaves the stream's credits
unchanged; when available is below the threshold the outbound queue is untouched, but
when available is at least the threshold a CreditUpdate frame carrying credit 0 is
emitted (appended to the outbound queue whenever the queue is open and has space). -/
theorem c7_return_zero_amended (c : ConnectionContext) (sid : StreamId) (st : StreamState)
    (hs : c.stream_states sid = some st)
    (hle : st.credits.available ≤ st.credits.capacity) :
    (c.return_credit sid 0).2 = .ok ()
    ∧ (c.return_credit sid 0).1.stream_states sid = some st
    ∧ (st.credits.capacity * FC_NUMERATOR / FC_DENOMINATOR ≤ st.credits.available →
        (c.return_credit sid 0).1.outbound =
          (if c.outboundClosed = false ∧ c.outbound.length < 1024 then
            c.outbound ++ [Frame.creditUpdate { stream_id := sid, credit := 0 }]
          else c.outbound))
    ∧ (¬ st.credits.capacity * FC_NUMERATOR / FC_DENOMINATOR ≤ st.credits.available →
        (c.return_credit sid 0).1.outbound = c.outbound) := by
  cases hct : c.conn_task <;> cases hcl : c.outboundClosed <;>
    by_cases hlen : c.outbound.length < 1024 <;>
      by_cases hthr : st.credits.capacity * FC_NUMERATOR / FC_DENOMINATOR ≤ st.credits.available <;>
        refine ⟨?_, ?_, ?_, ?_⟩ <;>
          simp [ConnectionContext.return_credit, hs, Credits.add_credit,
            ConnectionContext.send_frame, ConnectionContext.send_frame_finish,
            ConnectionContext.outbound_try_send, ConnectionContext.notify_conn_task,
            hct, hcl, hlen, hthr, Nat.min_eq_right hle]

/-- Witness for C7 at a concrete stream below the threshold. -/
theorem c7_return_zero_witness :
    ((singleStreamCtx 7 (mkStream 100 10 []) []).return_credit 7 0).2 = .ok () :=
  (c7_return_zero_amended (singleStreamCtx 7 (mkStream 100 10 []) []) 7
    (mkStream 100 10 []) rfl (by decide)).1

/-- The enqueue-and-notify tail of send_frame always reports success. -/
lemma send_frame_finish_snd (c : ConnectionContext) (f : Frame) :
    (c.send_frame_finish f).2 = .ok () :=
  (send_frame_finish_spec c f).1

/-- The enqueue-and-notify tail of send_frame leaves the stream map untouched. -/
lemma send_frame_finish_states (c : ConnectionContext) (f : Frame) :
    (c.send_frame_finish f).1.stream_states = c.stream_states :=
  (send_frame_finish_spec c f).2.1

/-- The enqueue-and-notify tail of send_frame leaves the sender map untouched. -/
lemma send_frame_finish_senders (c : ConnectionContext) (f : Frame) :
    (c.send_frame_finish f).1.stream_senders = c.stream_senders :=
  (send_frame_finish_spec c f).2.2.1

/-- The enqueue-and-notify tail of send_frame appends the frame exactly when the
outbound queue is open and below capacity. -/
lemma send_frame_finish_outbound (c : ConnectionContext) (f : Frame) :
    (c.send_frame_finish f).1.outbound =
      (if c.outboundClosed = false ∧ c.outbound.length < 1024 then c.outbound ++ [f]
       else c.outbound) :=
  (send_frame_finish_spec c f).2.2.2.1

set_option maxRecDepth 100000 in
/-- Claim C8 counterexample: with the outbound queue at its 1024-frame capacity, the
enqueue of the StreamRequest frame fails (the frame is silently dropped), yet the
StreamRequester future still resolves successfully instead of failing. -/
theorem c8_enqueue_counterexample :
    (fullOutboundCtx.streamRequester_poll 3 64).2 = .ok (.ready 3)
    ∧ (fullOutboundCtx.streamRequester_poll 3 64).1.outbound = fullOutboundCtx.outbound :=
  ⟨rfl, rfl⟩

/-- Claim C8 (amended): StreamRequester fails when the stream id already exists;
otherwise it creates a StreamState with Credits.new credit, registers the inbound
sender, submits a StreamRequest frame carrying the id and credit to the outbound queue
(appended when the queue is open and below its 1024-frame capacity, silently dropped
otherwise), and always resolves to a StreamRef for that stream id: an outbound enqueue
failure does not fail the future. -/
theorem c8_stream_requester_amended (c : ConnectionContext) (sid : StreamId) (cr : Nat) :
    (∀ st, c.stream_states sid = some st → c.streamRequester_poll sid cr = (c, .error ()))
    ∧ (c.stream_states sid = none →
        (c.streamRequester_poll sid cr).2 = .ok (.ready sid)
        ∧ (c.streamRequester_poll sid cr).1.stream_states sid =
            some { credits := Credits.new cr, data_buffer := [], data := [], send_task := none, recv_task := none }
        ∧ (c.streamRequester_poll sid cr).1.stream_senders sid = true
        ∧ (c.streamRequester_poll sid cr).1.outbound =
            (if c.outboundClosed = false ∧ c.outbound.length < 1024 then
              c.outbound ++ [Frame.streamRequest { stream_id := sid, credit_capacity := cr }]
            else c.outbound)) := by
  constructor
  · intro st hs
    simp [ConnectionContext.streamRequester_poll, hs]
  · intro hs
    refine ⟨?_, ?_, ?_, ?_⟩ <;>
      simp [ConnectionContext.streamRequester_poll, hs, ConnectionContext.send_frame,
        send_frame_finish_snd, send_frame_finish_states, send_frame_finish_senders,
        send_frame_finish_outbound]

/-- Witness for C8 at a fresh context. -/
theorem c8_stream_requester_witness :
    ((ConnectionContext.new 0).streamRequester_poll 3 64).2 = .ok (.ready 3) :=
  ((c8_stream_requester_amended (ConnectionContext.new 0) 3 64).2 rfl).1

/-- Claim C10: whenever handle_frame or send_frame returns an error, the connection
context is returned unchanged: no stream state is created or modified, no credit is
reserved or granted, nothing is appended to new_streams, and no frame is enqueued on
any queue. -/
theorem c10_error_state_unchanged :
    (∀ (c : ConnectionContext) (f : Frame) (c1 : ConnectionContext) (e : ConnectionError),
        c.handle_frame f = some (c1, .error e) → c1 = c)
    ∧ (∀ (c : ConnectionContext) (f : Frame) (c1 : ConnectionContext) (e : ConnectionError),
        c.send_frame f = (c1, .error e) → c1 = c) := by
  constructor
  · intro c f c1 e h
    cases f with
    | streamRequest fr =>
      simp only [ConnectionContext.handle_frame, ConnectionContext.on_stream_request] at h
      split at h
      · simp at h
        exact h.1.symm
      · simp at h
    | creditUpdate fr =>
      simp only [ConnectionContext.handle_frame, ConnectionContext.on_credit_update] at h
      simp at h
    | data d =>
      simp only [ConnectionContext.handle_frame, ConnectionContext.on_data,
        ConnectionContext.on_data_send] at h
      split at h
      · simp at h
        exact h.1.symm
      · split at h
        · simp at h
        · split at h
          · simp at h
          · split at h
            · split at h
              · simp at h
                exact h.1.symm
              · split at h
                · simp at h
                · simp at h
            · split at h
              · simp at h
              · simp at h
    | ping a b =>
      simp [ConnectionContext.handle_frame] at h
    | pong a b =>
      simp [ConnectionContext.handle_frame] at h
    | unknown =>
      simp [ConnectionContext.handle_frame] at h
      exact h.1.symm
  · intro c f c1 e h
    cases f with
    | data d =>
      simp only [ConnectionContext.send_frame] at h
      split at h
      · simp at h
        exact h.1.symm
      · split at h
        · split at h
          · simp at h
            exact h.1.symm
          · have h3 := congrArg Prod.snd h
            rw [send_frame_finish_snd] at h3
            simp at h3
        · have h3 := congrArg Prod.snd h
          rw [send_frame_finish_snd] at h3
          simp at h3
    | streamRequest fr =>
      have h2 : c.send_frame_finish (Frame.streamRequest fr) = (c1, Except.error e) := h
      have h3 := congrArg Prod.snd h2
      rw [send_frame_finish_snd] at h3
      simp at h3
    | creditUpdate fr =>
      have h2 : c.send_frame_finish (Frame.creditUpdate fr) = (c1, Except.error e) := h
      have h3 := congrArg Prod.snd h2
      rw [send_frame_finish_snd] at h3
      simp at h3
    | ping a b =>
      have h2 : c.send_frame_finish (Frame.ping a b) = (c1, Except.error e) := h
      have h3 := congrArg Prod.snd h2
      rw [send_frame_finish_snd] at h3
      simp at h3
    | pong a b =>
      have h2 : c.send_frame_finish (Frame.pong a b) = (c1, Except.error e) := h
      have h3 := congrArg Prod.snd h2
      rw [send_frame_finish_snd] at h3
      simp at h3
    | unknown =>
      have h2 : c.send_frame_finish Frame.unknown = (c1, Except.error e) := h
      have h3 := congrArg Prod.snd h2
      rw [send_frame_finish_snd] at h3
      simp at h3

/-- Two contexts with the same two maps satisfy KeysEq together. -/
lemma keysEq_congr {c c2 : ConnectionContext} (h : KeysEq c)
    (hstates : c2.stream_states = c.stream_states)
    (hsend : c2.stream_senders = c.stream_senders) : KeysEq c2 := by
  intro s
  rw [hstates, hsend]
  exact h s

/-- A fresh context has both maps empty. -/
lemma keysEq_new (id : Nat) : KeysEq (ConnectionContext.new id) := by
  intro s
  simp [ConnectionContext.new]

/-- Overwriting the state of a stream that is already present keeps the key sets
equal. -/
lemma keysEq_update_existing {c : ConnectionContext} {sid : StreamId} {st : StreamState}
    (h : KeysEq c) (hs : c.stream_states sid = some st) (st2 : StreamState) :
    KeysEq { c with stream_states := fun s => if s = sid then some st2 else c.stream_states s } := by
  intro s
  by_cases hss : s = sid
  · subst hss
    have hsender : c.stream_senders s = true := (h s).mp (by simp [hs])
    simp [hsender]
  · simpa [hss] using h s

/-- Inserting a stream into both maps at once keeps the key sets equal. -/
lemma keysEq_insert {c : ConnectionContext} (c2 : ConnectionContext) (sid : StreamId)
    (st : StreamState) (h : KeysEq c)
    (hstates : c2.stream_states = fun s => if s = sid then some st else c.stream_states s)
    (hsend : c2.stream_senders = fun s => if s = sid then true else c.stream_senders s) :
    KeysEq c2 := by
  intro s
  rw [hstates, hsend]
  by_cases hss : s = sid
  · simp [hss]
  · simpa [hss] using h s

/-- notify_conn_task does not touch the two maps. -/
lemma keysEq_notify_conn {c : ConnectionContext} (h : KeysEq c) :
    KeysEq c.notify_conn_task := by
  unfold ConnectionContext.notify_conn_task
  cases hct : c.conn_task with
  | none => exact h
  | some t => exact keysEq_congr h rfl rfl

/-- notify_new_stream_task does not touch the two maps. -/
lemma keysEq_notify_new_stream {c : ConnectionContext} (h : KeysEq c) :
    KeysEq c.notify_new_stream_task := by
  unfold ConnectionContext.notify_new_stream_task
  cases hct : c.new_stream_task with
  | none => exact h
  | some t => exact keysEq_congr h rfl rfl

/-- send_frame preserves equality of the key sets. -/
lemma keysEq_send_frame {c : ConnectionContext} (f : Frame) (h : KeysEq c) :
    KeysEq (c.send_frame f).1 := by
  cases f with
  | data d =>
    simp only [ConnectionContext.send_frame]
    split
    · exact h
    next st hs =>
      split
      · split
        · exact h
        · exact keysEq_congr (keysEq_update_existing h hs _)
            (send_frame_finish_states _ _) (send_frame_finish_senders _ _)
      · exact keysEq_congr h (send_frame_finish_states _ _) (send_frame_finish_senders _ _)
  | streamRequest fr =>
    exact keysEq_congr h (send_frame_finish_states _ _) (send_frame_finish_senders _ _)
  | creditUpdate fr =>
    exact keysEq_congr h (send_frame_finish_states _ _) (send_frame_finish_senders _ _)
  | ping a b =>
    exact keysEq_congr h (send_frame_finish_states _ _) (send_frame_finish_senders _ _)
  | pong a b =>
    exact keysEq_congr h (send_frame_finish_states _ _) (send_frame_finish_senders _ _)
  | unknown =>
    exact keysEq_congr h (send_frame_finish_states _ _) (send_frame_finish_senders _ _)

/-- handle_frame preserves equality of the key sets. -/
lemma keysEq_handle_frame {c c1 : ConnectionContext} {f : Frame}
    {r : Except ConnectionError (AsyncHandle Frame)}
    (h : KeysEq c) (he : c.handle_frame f = some (c1, r)) : KeysEq c1 := by
  cases f with
  | streamRequest fr =>
    simp only [ConnectionContext.handle_frame, ConnectionContext.on_stream_request] at he
    split at he
    · simp at he
      obtain ⟨h1, -⟩ := he
      exact h1 ▸ h
    next hs =>
      simp at he
      obtain ⟨h1, -⟩ := he
      rw [← h1]
      exact keysEq_notify_new_stream (keysEq_insert _ fr.stream_id _ h rfl
        (funext fun s => by by_cases hss : s = fr.stream_id <;> simp [hss]))
  | creditUpdate fr =>
    simp only [ConnectionContext.handle_frame, ConnectionContext.on_credit_update] at he
    simp at he
    obtain ⟨h1, -⟩ := he
    exact h1 ▸ h
  | data d =>
    simp only [ConnectionContext.handle_frame, ConnectionContext.on_data,
      ConnectionContext.on_data_send] at he
    split at he
    · simp at he
      obtain ⟨h1, -⟩ := he
      exact h1 ▸ h
    next st hs =>
      split at he
      · simp at he
      · split at he
        · simp at he
          obtain ⟨h1, -⟩ := he
          exact h1 ▸ h
        · split at he
          · split at he
            · simp at he
              obtain ⟨h1, -⟩ := he
              exact h1 ▸ h
            · split at he
              · simp at he
                obtain ⟨h1, -⟩ := he
                rw [← h1]
                exact keysEq_update_existing h hs _
              · simp at he
                obtain ⟨h1, -⟩ := he
                rw [← h1]
                exact keysEq_update_existing h hs _
          · split at he
            · simp at he
              obtain ⟨h1, -⟩ := he
              rw [← h1]
              exact keysEq_update_existing h hs _
            · simp at he
              obtain ⟨h1, -⟩ := he
              rw [← h1]
              exact keysEq_update_existing h hs _
  | ping a b =>
    simp only [ConnectionContext.handle_frame] at he
    simp at he
    obtain ⟨h1, -⟩ := he
    exact h1 ▸ h
  | pong a b =>
    simp only [ConnectionContext.handle_frame] at he
    simp at he
    obtain ⟨h1, -⟩ := he
    exact h1 ▸ h
  | unknown =>
    simp only [ConnectionContext.handle_frame] at he
    simp at he
    obtain ⟨h1, -⟩ := he
    exact h1 ▸ h

/-- Witness for C10 at a Data frame for an unknown stream on a fresh context. -/
theorem c10_error_state_unchanged_witness :
    (ConnectionContext.new 0).handle_frame (Frame.data { stream_id := 5, payload := [] }) =
      some (ConnectionContext.new 0, .error .invalidStreamId)
    ∧ ConnectionContext.new 0 = ConnectionContext.new 0 :=
  ⟨rfl, c10_error_state_unchanged.1 (ConnectionContext.new 0)
    (Frame.data { stream_id := 5, payload := [] }) (ConnectionContext.new 0)
    .invalidStreamId rfl⟩

/-- runRead preserves equality of the key sets. -/
lemma keysEq_runRead (frames : List Frame) :
    ∀ (b : Bool) (c : ConnectionContext) r, KeysEq c → runRead frames b c = some r →
      KeysEq r.2.2.2 := by
  induction frames with
  | nil =>
    intro b c r h he
    obtain ⟨q1, q2, q3, q4⟩ := r
    simp [runRead] at he
    obtain ⟨-, -, -, h4⟩ := he
    exact h4 ▸ h
  | cons f rest ih =>
    intro b c r h he
    simp only [runRead] at he
    cases hh : c.handle_frame f with
    | none => rw [hh] at he; simp at he
    | some p =>
      obtain ⟨c1, r1⟩ := p
      rw [hh] at he
      have h1 : KeysEq c1 := keysEq_handle_frame h hh
      cases r1 with
      | error e => exact ih b c1 r h1 he
      | ok a =>
        cases a with
        | ready => exact ih b c1 r h1 he
        | notReady g =>
          obtain ⟨q1, q2, q3, q4⟩ := r
          simp at he
          obtain ⟨-, -, -, h4⟩ := he
          exact h4 ▸ h1

/-- poll_read_progress preserves equality of the key sets. -/
lemma keysEq_poll_read (hol : Option Frame) (frames : List Frame) (b : Bool)
    (c : ConnectionContext) (r) (h : KeysEq c)
    (he : poll_read_progress hol frames b c = some r) : KeysEq r.2.2.2 := by
  cases hol with
  | none => exact keysEq_runRead frames b c r h he
  | some f =>
    simp only [poll_read_progress] at he
    cases hh : c.handle_frame f with
    | none => rw [hh] at he; simp at he
    | some p =>
      obtain ⟨c1, r1⟩ := p
      rw [hh] at he
      have h1 : KeysEq c1 := keysEq_handle_frame h hh
      cases r1 with
      | error e => exact keysEq_runRead frames b c1 r h1 he
      | ok a =>
        cases a with
        | ready => exact keysEq_runRead frames b c1 r h1 he
        | notReady g =>
          obtain ⟨q1, q2, q3, q4⟩ := r
          simp at he
          obtain ⟨-, -, -, h4⟩ := he
          exact h4 ▸ h1

/-- poll_complete preserves equality of the key sets. -/
lemma keysEq_poll_complete {c : ConnectionContext} (w : FrameWriter) (h : KeysEq c) :
    KeysEq (c.poll_complete w).1 := by
  unfold ConnectionContext.poll_complete
  split
  · exact h
  · exact keysEq_congr h rfl rfl

/-- driver_poll preserves equality of the key sets. -/
lemma keysEq_driver_poll (t : Task) (hol : Option Frame) (frames : List Frame) (b : Bool)
    {c : ConnectionContext} (w : FrameWriter) (r) (h : KeysEq c)
    (he : driver_poll t hol frames b c w = some r) : KeysEq r.2.2.2.1 := by
  unfold driver_poll at he
  cases hp : poll_read_progress hol frames b c with
  | none => rw [hp] at he; simp at he
  | some q =>
    rw [hp] at he
    obtain ⟨rr, hol1, rest, c1⟩ := q
    have h1 : KeysEq c1 := keysEq_poll_read hol frames b c _ h hp
    cases rr with
    | ready =>
      obtain ⟨q1, q2, q3, q4, q5⟩ := r
      simp at he
      obtain ⟨-, -, -, h4, -⟩ := he
      exact h4 ▸ h1
    | ioError e =>
      obtain ⟨q1, q2, q3, q4, q5⟩ := r
      simp at he
      obtain ⟨-, -, -, h4, -⟩ := he
      rw [← h4]
      exact keysEq_congr h1 rfl rfl
    | notReady =>
      dsimp only at he
      cases hpc : c1.poll_complete w with
      | mk c2 p2 =>
        obtain ⟨w2, a2⟩ := p2
        rw [hpc] at he
        have h2 : KeysEq c2 := by
          have h3 := keysEq_poll_complete w h1
          rwa [hpc] at h3
        cases a2 with
        | notReady =>
          obtain ⟨q1, q2, q3, q4, q5⟩ := r
          simp at he
          obtain ⟨-, -, -, h4, -⟩ := he
          exact h4 ▸ h2
        | ready u =>
          obtain ⟨q1, q2, q3, q4, q5⟩ := r
          simp at he
          obtain ⟨-, -, -, h4, -⟩ := he
          rw [← h4]
          exact keysEq_congr h2 rfl rfl

/-- next_stream preserves equality of the key sets. -/
lemma keysEq_next_stream {c : ConnectionContext} (h : KeysEq c) :
    KeysEq c.next_stream.1 := by
  unfold ConnectionContext.next_stream
  cases hls : c.new_streams with
  | nil => exact h
  | cons a as => exact keysEq_congr h rfl rfl

/-- incomingStreams_poll preserves equality of the key sets. -/
lemma keysEq_incoming {c : ConnectionContext} (t : Task) (h : KeysEq c) :
    KeysEq (c.incomingStreams_poll t).1 := by
  unfold ConnectionContext.incomingStreams_poll
  split
  · exact h
  · cases hns : c.next_stream with
    | mk c1 o =>
      have h1 : KeysEq c1 := by
        have h2 := keysEq_next_stream h
        rwa [hns] at h2
      cases o with
      | some ev => exact h1
      | none => exact keysEq_congr h1 rfl rfl

/-- poll_stream_capacity preserves equality of the key sets. -/
lemma keysEq_poll_stream_capacity {c : ConnectionContext} (sid : StreamId) (t : Task)
    (h : KeysEq c) : KeysEq (c.poll_stream_capacity sid t).1 := by
  unfold ConnectionContext.poll_stream_capacity
  split
  · exact h
  · split
    · exact h
    · exact h
    · split
      · exact h
      next st hs =>
        dsimp only
        split
        · exact keysEq_update_existing h hs _
        · exact h

/-- return_credit preserves equality of the key sets. -/
lemma keysEq_return_credit {c : ConnectionContext} (sid : StreamId) (n : Nat)
    (h : KeysEq c) : KeysEq (c.return_credit sid n).1 := by
  unfold ConnectionContext.return_credit
  split
  · exact h
  next st hs =>
    dsimp only
    split
    · exact keysEq_send_frame _ (keysEq_update_existing h hs _)
    · exact keysEq_update_existing h hs _

/-- streamRequester_poll preserves equality of the key sets. -/
lemma keysEq_requester {c : ConnectionContext} (sid : StreamId) (cr : Nat) (h : KeysEq c) :
    KeysEq (c.streamRequester_poll sid cr).1 := by
  unfold ConnectionContext.streamRequester_poll
  split
  · exact h
  next hs =>
    dsimp only
    split
    · exact keysEq_send_frame _ (keysEq_insert _ sid _ h rfl rfl)
    · exact keysEq_send_frame _ (keysEq_insert _ sid _ h rfl rfl)

/-- Every public operation preserves equality of the key sets. -/
lemma keysEq_applyOp (op : Op) {c : ConnectionContext} (h : KeysEq c) :
    KeysEq (applyOp op c) := by
  cases op with
  | handle f =>
    dsimp only [applyOp]
    cases hh : c.handle_frame f with
    | none => exact h
    | some p =>
      obtain ⟨c1, r1⟩ := p
      exact keysEq_handle_frame h hh
  | send f => exact keysEq_send_frame f h
  | pollCap sid t => exact keysEq_poll_stream_capacity sid t h
  | retCredit sid n => exact keysEq_return_credit sid n h
  | requester sid cr => exact keysEq_requester sid cr h
  | next => exact keysEq_next_stream h
  | incoming t => exact keysEq_incoming t h
  | complete w => exact keysEq_poll_complete w h
  | driver t hol frames b w =>
    dsimp only [applyOp]
    cases hd : driver_poll t hol frames b c w with
    | none => exact h
    | some r => exact keysEq_driver_poll t hol frames b w r h hd

/-- Claim C9: in every reachable connection context the key sets of stream_states and
stream_senders coincide; every operation that inserts a stream id into one map inserts
it into the other, and no operation removes from only one. -/
theorem c9_keys_equal {c : ConnectionContext} (h : Reachable c) : KeysEq c := by
  induction h with
  | base id => exact keysEq_new id
  | step op hr ih => exact keysEq_applyOp op ih

/-- Witness for C9: the context reached by handling one inbound StreamRequest. -/
theorem c9_keys_equal_witness :
    KeysEq (applyOp (Op.handle (Frame.streamRequest { stream_id := 4, credit_capacity := 8 })) (ConnectionContext.new 0)) :=
  c9_keys_equal (Reachable.step _ (Reachable.base 0))

end Spaniel
